import Mathlib

/-!
Verification of the accounting engine of `web_de_administracion_de_suministros`.

The Python sources under `app/services/accounting_services.py`,
`app/blueprints/helpers.py` and `app/blueprints/inventario.py` are shallowly
embedded below.  `Decimal` amounts become `ℚ` (Python `Decimal` arithmetic on
the values appearing here is exact rational arithmetic, plus an explicit
`quantize` step which is modelled by `quantize2`).  The SQLAlchemy session is
modelled relationally: a session holds the committed rows and the pending
(added but not yet committed) rows; `commit` moves pending rows into the
committed store and `rollback` discards them, which is exactly what decides
what is "persisted" after a failure.
-/

namespace Suministros

/-- Banker's rounding of a rational to the nearest integer
(ties to even), the default `ROUND_HALF_EVEN` of Python `Decimal`. -/
def roundHalfEven (q : ℚ) : ℤ :=
  let n := ⌊q⌋
  if q - n < 1/2 then n
  else if (1:ℚ)/2 < q - n then n + 1
  else if 2 ∣ n then n else n + 1

/-- Python `x.quantize(Decimal("0.01"))`: round to two decimal places, ties to even. -/
def quantize2 (q : ℚ) : ℚ := (roundHalfEven (q * 100) : ℚ) / 100

/-- The function `calcular_pmp` from `app/services/accounting_services.py`, parametrised by
the stored quantity and cost of the product row it looks up (`producto.cantidad`,
`producto.costo`) and the incoming movement.  The body after the
`Producto no encontrado` guard is translated line by line. -/
def calcular_pmp (cantidad_actual costo_actual cantidad_nueva costo_nuevo : ℚ) : ℚ :=
  -- Si no hay stock actual, el costo es el nuevo
  if cantidad_actual ≤ 0 then costo_nuevo
  else
    let valor_total := cantidad_actual * costo_actual + cantidad_nueva * costo_nuevo
    let cantidad_total := cantidad_actual + cantidad_nueva
    if cantidad_total = 0 then 0
    else quantize2 (valor_total / cantidad_total)


/-! ## The data model (`app/models.py`) and the SQLAlchemy session

Rows of the three tables touched by the accounting engine.  `Cuenta.codigo`
is unique (the seeding keys accounts by code), ids come from the insertion
sequence.  A `Sess` is a session: the committed rows plus the rows added in
the current transaction; queries see both (SQLAlchemy autoflush), `commit`
makes pending rows durable, `rollback` discards them. -/

/-- A `Cuenta` row: a ledger account. -/
structure Cuenta where
  id : ℕ
  codigo : String
  nombre : String
  tipo : String
deriving Repr, DecidableEq

/-- An `Asiento` row: a journal-entry header. -/
structure Asiento where
  id : ℕ
  descripcion : String
  usuario_id : ℕ
  referencia_id : Option ℕ
deriving Repr, DecidableEq

/-- An `Apunte` row: one debit/credit line of a journal entry. -/
structure Apunte where
  asiento_id : ℕ
  cuenta_id : ℕ
  debe : ℚ
  haber : ℚ
deriving Repr, DecidableEq

/-- A snapshot of the three tables. -/
structure DB where
  cuentas : List Cuenta
  asientos : List Asiento
  apuntes : List Apunte
deriving Repr, DecidableEq

def DB.empty : DB := ⟨[], [], []⟩

/-- Union of two snapshots (committed rows followed by pending rows). -/
def DB.union (d e : DB) : DB :=
  ⟨d.cuentas ++ e.cuentas, d.asientos ++ e.asientos, d.apuntes ++ e.apuntes⟩

/-- A database session: durable rows, rows inserted but not yet committed,
and the id sequences. -/
structure Sess where
  committed : DB
  pending : DB
  nextCuentaId : ℕ
  nextAsientoId : ℕ
deriving Repr, DecidableEq

/-- Model of `db.session.commit()`: pending inserts become durable. -/
def Sess.commit (s : Sess) : Sess :=
  ⟨s.committed.union s.pending, DB.empty, s.nextCuentaId, s.nextAsientoId⟩

/-- Model of `db.session.rollback()`: pending inserts are discarded (sequences do not
roll back). -/
def Sess.rollback (s : Sess) : Sess :=
  ⟨s.committed, DB.empty, s.nextCuentaId, s.nextAsientoId⟩

/-- The rows a query sees inside the transaction: committed plus pending. -/
def Sess.visible (s : Sess) : DB := s.committed.union s.pending

/-- The empty database session. -/
def Sess.empty : Sess := ⟨DB.empty, DB.empty, 1, 1⟩

/-! ## `app/services/accounting_services.py` -/

/-- The lookup `obtener_cuenta_por_codigo`: `Cuenta.query.filter_by(codigo=codigo).first()`. -/
def obtener_cuenta_por_codigo (s : Sess) (codigo : String) : Option Cuenta :=
  s.visible.cuentas.find? (fun c => c.codigo == codigo)

/-- The `cuentas_basicas` list of `inicializar_plan_cuentas`:
`(codigo, nombre, tipo)`. -/
def cuentas_basicas : List (String × String × String) :=
  [("570", "Caja", "ACTIVO"),
   ("572", "Bancos", "ACTIVO"),
   ("300", "Inventario de Mercaderías", "ACTIVO"),
   ("430", "Clientes", "ACTIVO"),
   ("400", "Proveedores", "PASIVO"),
   ("475", "Hacienda Pública Acreedora", "PASIVO"),
   ("100", "Capital Social", "PATRIMONIO"),
   ("700", "Ventas de Mercaderías", "INGRESO"),
   ("600", "Compras de Mercaderías", "GASTO"),
   ("628", "Suministros (Luz, Agua)", "GASTO"),
   ("693", "Pérdidas por Deterioro", "GASTO")]

/-- Model of `db.session.add(nueva_cuenta)`, with the id the sequence will assign. -/
def Sess.addCuenta (s : Sess) (codigo nombre tipo : String) : Sess :=
  { s with
    pending := { s.pending with
      cuentas := s.pending.cuentas ++ [⟨s.nextCuentaId, codigo, nombre, tipo⟩] }
    nextCuentaId := s.nextCuentaId + 1 }

/-- The body of the `for data in cuentas_basicas:` loop of
`inicializar_plan_cuentas`: insert the account unless a row with its code
already exists. -/
def plantar_cuenta (s : Sess) (data : String × String × String) : Sess :=
  match obtener_cuenta_por_codigo s data.1 with
  | some _ => s
  | none => s.addCuenta data.1 data.2.1 data.2.2

/-- The seeding `inicializar_plan_cuentas`: run the loop over `cuentas_basicas`, then
`db.session.commit()` (the commit is part of this function in the source). -/
def inicializar_plan_cuentas (s : Sess) : Sess :=
  (cuentas_basicas.foldl plantar_cuenta s).commit

/-- The two `ValueError`s `crear_asiento` can raise, with the data their
messages carry. -/
inductive AsientoError where
  /-- `"El asiento está descuadrado: Debe={total_debe}, Haber={total_haber}"` -/
  | descuadrado (total_debe total_haber : ℚ)
  /-- `"Cuenta no encontrada: {cuenta_codigo}"` -/
  | cuentaNoEncontrada (cuenta_codigo : String)
deriving Repr, DecidableEq

/-- One element of `apuntes_data`:
`{'cuenta_codigo': str, 'debe': Decimal, 'haber': Decimal}`. -/
structure ApunteData where
  cuenta_codigo : String
  debe : ℚ
  haber : ℚ
deriving Repr, DecidableEq

/-- Model of `db.session.add(apunte)` with `apunte.asiento = asiento`. -/
def Sess.addApunte (s : Sess) (a : Apunte) : Sess :=
  { s with pending := { s.pending with apuntes := s.pending.apuntes ++ [a] } }

/-- The `for apunte_dict in apuntes_data:` loop of `crear_asiento`: resolve
each code, re-seeding the chart once when it is missing, and add the line;
a still-unresolved code raises with the session as it stands at that point. -/
def crear_apuntes (asiento_id : ℕ) : Sess → List ApunteData → Sess × Option AsientoError
  | s, [] => (s, none)
  | s, a :: rest =>
    match obtener_cuenta_por_codigo s a.cuenta_codigo with
    | some cuenta =>
      crear_apuntes asiento_id
        (s.addApunte ⟨asiento_id, cuenta.id, a.debe, a.haber⟩) rest
    | none =>
      -- `if not cuenta:` re-seed the chart and retry the lookup exactly once
      let s' := inicializar_plan_cuentas s
      match obtener_cuenta_por_codigo s' a.cuenta_codigo with
      | some cuenta =>
        crear_apuntes asiento_id
          (s'.addApunte ⟨asiento_id, cuenta.id, a.debe, a.haber⟩) rest
      | none => (s', some (.cuentaNoEncontrada a.cuenta_codigo))

/-- Model of `db.session.add(asiento)` followed by `db.session.flush()`: the header
row is inserted and the sequence assigns its id. -/
def Sess.flushAsiento (s : Sess) (descripcion : String) (usuario_id : ℕ)
    (referencia_id : Option ℕ) : Sess :=
  { s with
    pending := { s.pending with
      asientos := s.pending.asientos ++
        [⟨s.nextAsientoId, descripcion, usuario_id, referencia_id⟩] }
    nextAsientoId := s.nextAsientoId + 1 }

/-- The engine entry point `crear_asiento`: validate `total_debe == total_haber`, add and flush the
`Asiento` header (the flush assigns its id), then add the lines.  The result
carries the session state at return/raise time together with either the new
entry's id or the raised error. -/
def crear_asiento (s : Sess) (descripcion : String) (usuario_id : ℕ)
    (referencia_id : Option ℕ) (apuntes_data : List ApunteData) :
    Sess × Except AsientoError ℕ :=
  -- Validar que debe == haber
  let total_debe := (apuntes_data.map (·.debe)).sum
  let total_haber := (apuntes_data.map (·.haber)).sum
  if total_debe ≠ total_haber then
    (s, .error (.descuadrado total_debe total_haber))
  else
    match crear_apuntes s.nextAsientoId
        (s.flushAsiento descripcion usuario_id referencia_id) apuntes_data with
    | (s2, none) => (s2, .ok s.nextAsientoId)
    | (s2, some e) => (s2, .error e)

/-- The balance function `obtener_saldo_cuenta`: debit balance for `ACTIVO`/`GASTO` accounts,
credit balance otherwise; `Decimal(0)` for an unknown account id. -/
def obtener_saldo_cuenta (s : Sess) (cuenta_id : ℕ) : ℚ :=
  match s.visible.cuentas.find? (fun c => c.id == cuenta_id) with
  | none => 0
  | some cuenta =>
    let apuntes := s.visible.apuntes.filter (fun a => a.cuenta_id == cuenta_id)
    let total_debe := (apuntes.map (·.debe)).sum
    let total_haber := (apuntes.map (·.haber)).sum
    if cuenta.tipo = "ACTIVO" ∨ cuenta.tipo = "GASTO" then total_debe - total_haber
    else total_haber - total_debe

/-- The account codes a session can resolve. -/
def tiene_codigo (s : Sess) (codigo : String) : Prop :=
  ∃ c ∈ s.visible.cuentas, c.codigo = codigo

/-- A ledger holding an asset account (id 1) with lines debit 100 /
credit 30 and an income account (id 2) with lines debit 10 / credit 150,
used for the concrete instances of the sign-convention claim. -/
def saldoEjemplo : Sess :=
  ⟨⟨[⟨1, "570", "Caja", "ACTIVO"⟩, ⟨2, "700", "Ventas de Mercaderías", "INGRESO"⟩],
    [⟨1, "ejemplo", 1, none⟩],
    [⟨1, 1, 100, 0⟩, ⟨1, 1, 0, 30⟩, ⟨1, 2, 10, 0⟩, ⟨1, 2, 0, 150⟩]⟩,
   DB.empty, 3, 2⟩

/-! ## Accounting side of `app/blueprints/inventario.py`

`confirmar_compra` books, per confirmed product, a revenue entry
(`570` debit / `700` credit for `total = cantidad * precio_unitario`) and,
when `costo_total = producto.costo * cantidad > 0`, a cost entry
(`600` debit / `300` credit).  `cancelar_pedido` books the mirrored entries.
Only the `crear_asiento` calls are modelled; stock counters and the `Compra`
row do not enter the ledger. -/

/-- The journal entries of one product inside `confirmar_compra`. -/
def confirmar_compra_asientos (s : Sess) (usuario_id producto_id : ℕ)
    (modelo : String) (cantidad : ℕ) (precio_unitario costo : ℚ) :
    Sess × Except AsientoError Unit :=
  let total : ℚ := (cantidad : ℚ) * precio_unitario
  -- 1. Ingreso por Venta: Debe Caja (570) - Haber Ventas (700)
  match crear_asiento s (s!"Venta de {modelo} (x{cantidad})") usuario_id
      (some producto_id) [⟨"570", total, 0⟩, ⟨"700", 0, total⟩] with
  | (s, .error e) => (s, .error e)
  | (s, .ok _) =>
    -- 2. Costo de Venta: Debe Compras (600) - Haber Inventario (300)
    let costo_total := costo * (cantidad : ℚ)
    if costo_total > 0 then
      match crear_asiento s (s!"Costo Venta {modelo}") usuario_id
          (some producto_id) [⟨"600", costo_total, 0⟩, ⟨"300", 0, costo_total⟩] with
      | (s, .error e) => (s, .error e)
      | (s, .ok _) => (s, .ok ())
    else (s, .ok ())

/-- The journal entries of `cancelar_pedido`: the mirror images, built from
the stored `pedido.total`, `pedido.cantidad` and `producto.costo`. -/
def cancelar_pedido_asientos (s : Sess) (usuario_id pedido_id : ℕ)
    (modelo : String) (pedido_total : ℚ) (pedido_cantidad : ℕ) (producto_costo : ℚ) :
    Sess × Except AsientoError Unit :=
  -- 1. Revertir Ingreso
  match crear_asiento s (s!"Cancelación Venta {modelo}") usuario_id
      (some pedido_id) [⟨"700", pedido_total, 0⟩, ⟨"570", 0, pedido_total⟩] with
  | (s, .error e) => (s, .error e)
  | (s, .ok _) =>
    -- 2. Revertir Costo
    let costo_total := producto_costo * (pedido_cantidad : ℚ)
    if costo_total > 0 then
      match crear_asiento s (s!"Reversión Costo {modelo}") usuario_id
          (some pedido_id) [⟨"300", costo_total, 0⟩, ⟨"600", 0, costo_total⟩] with
      | (s, .error e) => (s, .error e)
      | (s, .ok _) => (s, .ok ())
    else (s, .ok ())

/-! ## Reachable ledger states -/

/-- The chart of accounts seeded on an empty database
(`inicializar_plan_cuentas` is called at application start-up). -/
def plan : Sess := inicializar_plan_cuentas Sess.empty

/-- The ledger states reachable from an empty ledger (no lines) by
successfully completed `crear_asiento` calls, together with the session
commits the callers perform and chart re-seedings. -/
inductive Alcanzable : Sess → Prop where
  | inicial (s : Sess) : s.visible.apuntes = [] → Alcanzable s
  | paso (s s' : Sess) (descripcion : String) (usuario_id : ℕ)
      (referencia_id : Option ℕ) (apuntes_data : List ApunteData) (id : ℕ) :
      Alcanzable s →
      crear_asiento s descripcion usuario_id referencia_id apuntes_data =
        (s', .ok id) →
      Alcanzable s'
  | commit (s : Sess) : Alcanzable s → Alcanzable s.commit
  | seed (s : Sess) : Alcanzable s → Alcanzable (inicializar_plan_cuentas s)

/-! ## Dates and the period resolver (`app/blueprints/helpers.py`)

Python `datetime` values are modelled by their Gregorian date components;
the period keys never look at the time of day, so two timestamps on the
same date get the same key.  `_days_before_year`, `_ymd2ord`,
`_isoweek1monday` and `isocalendar` are the CPython `datetime` algorithms
the resolver calls.  Python's floor `//` and `%` coincide with Lean's `Int`
`/` and `%` (both Euclidean) on the positive divisors used here. -/

/-- A Gregorian date: the date part of a `datetime` value. -/
structure Fecha where
  year : ℕ
  month : ℕ
  day : ℕ
deriving Repr, DecidableEq

/-- CPython `datetime`'s `_is_leap`. -/
def isLeap (y : ℕ) : Bool := y % 4 == 0 && (y % 100 != 0 || y % 400 == 0)

/-- Table `_DAYS_IN_MONTH` with the February leap adjustment. -/
def daysInMonth (y : ℕ) : ℕ → ℕ
  | 1 => 31
  | 2 => if isLeap y then 29 else 28
  | 3 => 31
  | 4 => 30
  | 5 => 31
  | 6 => 30
  | 7 => 31
  | 8 => 31
  | 9 => 30
  | 10 => 31
  | 11 => 30
  | 12 => 31
  | _ => 0

/-- CPython `_days_before_month`: `_DAYS_BEFORE_MONTH[month]` plus the leap
adjustment for months after February. -/
def daysBeforeMonth (y : ℕ) (m : ℕ) : ℕ :=
  (match m with
   | 1 => 0
   | 2 => 31
   | 3 => 59
   | 4 => 90
   | 5 => 120
   | 6 => 151
   | 7 => 181
   | 8 => 212
   | 9 => 243
   | 10 => 273
   | 11 => 304
   | 12 => 334
   | _ => 0) +
  (if 2 < m ∧ isLeap y then 1 else 0)

/-- A valid `datetime.date` (`MINYEAR = 1`). -/
def Fecha.valida (f : Fecha) : Prop :=
  1 ≤ f.year ∧ 1 ≤ f.month ∧ f.month ≤ 12 ∧
    1 ≤ f.day ∧ f.day ≤ daysInMonth f.year f.month

/-- CPython `_days_before_year`: days before January 1st of `year`. -/
def daysBeforeYear (y : ℕ) : ℤ :=
  365 * ((y - 1 : ℕ) : ℤ) + (((y - 1) / 4 : ℕ) : ℤ)
    - (((y - 1) / 100 : ℕ) : ℤ) + (((y - 1) / 400 : ℕ) : ℤ)

/-- CPython `_ymd2ord`: the proleptic-Gregorian ordinal, day 1 = 0001-01-01. -/
def ymd2ord (y m d : ℕ) : ℤ :=
  daysBeforeYear y + daysBeforeMonth y m + d

/-- CPython `_isoweek1monday`: the ordinal of the Monday starting ISO week 1 of
`year`. -/
def isoweek1monday (y : ℕ) : ℤ :=
  let firstday := ymd2ord y 1 1
  let firstweekday := (firstday + 6) % 7
  let week1monday := firstday - firstweekday
  if 3 < firstweekday then week1monday + 7 else week1monday

/-- CPython `date.isocalendar()`: ISO year and week (the weekday component is not
used by the resolver). -/
def isocalendar (f : Fecha) : ℤ × ℤ :=
  let today := ymd2ord f.year f.month f.day
  let week := (today - isoweek1monday f.year) / 7
  if week < 0 then
    ((f.year : ℤ) - 1, (today - isoweek1monday (f.year - 1)) / 7 + 1)
  else if 52 ≤ week ∧ isoweek1monday (f.year + 1) ≤ today then
    ((f.year : ℤ) + 1, 1)
  else
    ((f.year : ℤ), week + 1)

/-- Python `str.lower()` restricted to ASCII (every granularity string the
resolver compares against is ASCII). -/
def lowerChar (c : Char) : Char :=
  if 'A' ≤ c ∧ c ≤ 'Z' then Char.ofNat (c.toNat + 32) else c

/-- ASCII `str.lower()` on a whole string. -/
def lowerString (s : String) : String := ⟨s.data.map lowerChar⟩

/-- Zero-padding of Python's `{:0Nd}` format specifiers. -/
def pad (w n : ℕ) : String :=
  let s := toString n
  String.mk (List.replicate (w - s.length) '0') ++ s

/-- The resolver `_period_key_and_label`: the integer sort key, the label and the axis
caption for one timestamp at one granularity. -/
def _period_key_and_label (moment : Fecha) (intervalo : String) :
    List ℤ × String × String :=
  let normalized := lowerString intervalo
  if normalized = "dia" then
    ([(moment.year : ℤ), (moment.month : ℤ), (moment.day : ℤ)],
     s!"{pad 4 moment.year}-{pad 2 moment.month}-{pad 2 moment.day}", "Día")
  else if normalized = "semana" then
    let iso := isocalendar moment
    ([iso.1, iso.2], s!"{iso.1}-W{pad 2 iso.2.toNat}", "Semana")
  else if normalized = "trimestre" then
    let trimestre := (moment.month - 1) / 3 + 1
    ([(moment.year : ℤ), (trimestre : ℤ)],
     s!"{moment.year}-T{trimestre}", "Trimestre")
  else if normalized = "anio" then
    ([(moment.year : ℤ)], s!"{moment.year}", "Año")
  else
    ([(moment.year : ℤ), (moment.month : ℤ)],
     s!"{pad 4 moment.year}-{pad 2 moment.month}", "Mes")

/-- Python tuple `<` on integer tuples (lexicographic, shorter prefix
first). -/
def tupleLtB : List ℤ → List ℤ → Bool
  | [], [] => false
  | [], _ :: _ => true
  | _ :: _, [] => false
  | a :: as, b :: bs => if a < b then true else if b < a then false else tupleLtB as bs

/-- Python tuple `<=` on integer tuples. -/
def tupleLeB : List ℤ → List ℤ → Bool
  | [], _ => true
  | _ :: _, [] => false
  | a :: as, b :: bs => if a < b then true else if b < a then false else tupleLeB as bs

/-- Chronological order on the date parts of two timestamps. -/
def Fecha.le (f g : Fecha) : Prop :=
  f.year < g.year ∨ (f.year = g.year ∧
    (f.month < g.month ∨ (f.month = g.month ∧ f.day ≤ g.day)))

/-- Model of `orden[label] = clave` on an association list, keeping the dict's
insertion order for an existing label (Python dict semantics). -/
def ordenUpsert : List (String × List ℤ) → String × List ℤ →
    List (String × List ℤ)
  | [], p => [p]
  | (l, k) :: rest, p =>
    if l = p.1 then (l, p.2) :: rest else (l, k) :: ordenUpsert rest p

/-- Stable insertion by ascending sort key (the order `sorted(...)`
produces on the distinct keys the datasets build). -/
def insertarPorClave (p : String × List ℤ) :
    List (String × List ℤ) → List (String × List ℤ)
  | [] => [p]
  | q :: rest =>
    if tupleLtB q.2 p.2 then q :: insertarPorClave p rest else p :: q :: rest

/-- Sort the `orden` items by their integer sort key. -/
def ordenarPorClave : List (String × List ℤ) → List (String × List ℤ)
  | [] => []
  | p :: rest => insertarPorClave p (ordenarPorClave rest)

/-- The `periodos` list of `_dataset_ventas_totales`: bucket the purchase
dates, then list the labels ordered by their sort keys. -/
def _dataset_ventas_totales_periodos (fechas : List Fecha)
    (intervalo : String) : List String :=
  let orden := fechas.foldl
    (fun orden fecha =>
      let r := _period_key_and_label fecha intervalo
      ordenUpsert orden (r.2.1, r.1))
    []
  (ordenarPorClave orden).map (fun p => p.1)

/-! ## Expected session states of the sale / cancellation round-trip

The four entries `confirmar_compra` and `cancelar_pedido` book for one
product (quantity `cantidad`, price `precio`, unit cost `costo`), written
out as the sessions the engine is expected to reach.  Account ids come from
the seeded chart: 570→1, 700→8, 600→9, 300→3. -/

/-- State after the revenue entry of `confirmar_compra`. -/
def sesionVenta (uid pid : ℕ) (modelo : String) (cantidad : ℕ)
    (precio : ℚ) : Sess :=
  ((plan.flushAsiento (s!"Venta de {modelo} (x{cantidad})") uid
      (some pid)).addApunte
    ⟨1, 1, (cantidad : ℚ) * precio, 0⟩).addApunte
    ⟨1, 8, 0, (cantidad : ℚ) * precio⟩

/-- State after the cost-of-sale entry of `confirmar_compra`. -/
def sesionVentaCosto (uid pid : ℕ) (modelo : String) (cantidad : ℕ)
    (precio costo : ℚ) : Sess :=
  (((sesionVenta uid pid modelo cantidad precio).flushAsiento
      (s!"Costo Venta {modelo}") uid (some pid)).addApunte
    ⟨2, 9, costo * (cantidad : ℚ), 0⟩).addApunte
    ⟨2, 3, 0, costo * (cantidad : ℚ)⟩

/-- State after the revenue reversal of `cancelar_pedido` (the purchase
confirmation has been committed in between). -/
def sesionCancelacion (uid pid uid2 ped : ℕ) (modelo : String) (cantidad : ℕ)
    (precio costo : ℚ) : Sess :=
  (((sesionVentaCosto uid pid modelo cantidad precio costo).commit.flushAsiento
      (s!"Cancelación Venta {modelo}") uid2 (some ped)).addApunte
    ⟨3, 8, (cantidad : ℚ) * precio, 0⟩).addApunte
    ⟨3, 1, 0, (cantidad : ℚ) * precio⟩

/-- State after the cost reversal of `cancelar_pedido`. -/
def sesionReversion (uid pid uid2 ped : ℕ) (modelo : String) (cantidad : ℕ)
    (precio costo : ℚ) : Sess :=
  (((sesionCancelacion uid pid uid2 ped modelo cantidad precio costo).flushAsiento
      (s!"Reversión Costo {modelo}") uid2 (some ped)).addApunte
    ⟨4, 3, costo * (cantidad : ℚ), 0⟩).addApunte
    ⟨4, 9, 0, costo * (cantidad : ℚ)⟩

/-! ## Lemmas about the session operations -/

theorem DB.union_empty (d : DB) : d.union DB.empty = d := by
  simp [DB.union, DB.empty]

theorem Sess.visible_commit (s : Sess) : s.commit.visible = s.visible := by
  simp [Sess.commit, Sess.visible, DB.union_empty]

theorem Sess.visible_addCuenta (s : Sess) (c n t : String) :
    (s.addCuenta c n t).visible =
      ⟨s.visible.cuentas ++ [⟨s.nextCuentaId, c, n, t⟩],
       s.visible.asientos, s.visible.apuntes⟩ := by
  simp [Sess.addCuenta, Sess.visible, DB.union]

theorem Sess.visible_addApunte (s : Sess) (a : Apunte) :
    (s.addApunte a).visible =
      ⟨s.visible.cuentas, s.visible.asientos, s.visible.apuntes ++ [a]⟩ := by
  simp [Sess.addApunte, Sess.visible, DB.union]

theorem obtener_cuenta_isSome_iff (s : Sess) (codigo : String) :
    (obtener_cuenta_por_codigo s codigo).isSome ↔ tiene_codigo s codigo := by
  simp [obtener_cuenta_por_codigo, tiene_codigo, List.find?_isSome]

theorem obtener_cuenta_eq_none_iff (s : Sess) (codigo : String) :
    obtener_cuenta_por_codigo s codigo = none ↔ ¬ tiene_codigo s codigo := by
  rw [← obtener_cuenta_isSome_iff, Option.isSome_iff_ne_none]
  tauto

theorem plantar_cuenta_none (s : Sess) (d : String × String × String)
    (h : obtener_cuenta_por_codigo s d.1 = none) :
    plantar_cuenta s d = s.addCuenta d.1 d.2.1 d.2.2 := by
  unfold plantar_cuenta; rw [h]

theorem plantar_cuenta_some (s : Sess) (d : String × String × String)
    (c : Cuenta) (h : obtener_cuenta_por_codigo s d.1 = some c) :
    plantar_cuenta s d = s := by
  unfold plantar_cuenta; rw [h]

theorem tiene_codigo_plantar (s : Sess) (d : String × String × String)
    (codigo : String) (h : tiene_codigo s codigo) :
    tiene_codigo (plantar_cuenta s d) codigo := by
  unfold plantar_cuenta
  rcases hq : obtener_cuenta_por_codigo s d.1 with _ | c
  · obtain ⟨c, hc, he⟩ := h
    exact ⟨c, by simp [Sess.visible_addCuenta, hc], he⟩
  · exact h

theorem tiene_codigo_plantar_self (s : Sess) (d : String × String × String) :
    tiene_codigo (plantar_cuenta s d) d.1 := by
  unfold plantar_cuenta
  rcases hq : obtener_cuenta_por_codigo s d.1 with _ | c
  · exact ⟨⟨s.nextCuentaId, d.1, d.2.1, d.2.2⟩,
      by simp [Sess.visible_addCuenta], rfl⟩
  · refine ⟨c, List.mem_of_find?_eq_some hq, ?_⟩
    have := List.find?_some hq
    simpa using this

theorem tiene_codigo_foldl (l : List (String × String × String)) (s : Sess)
    (codigo : String) (h : tiene_codigo s codigo) :
    tiene_codigo (l.foldl plantar_cuenta s) codigo := by
  induction l generalizing s with
  | nil => exact h
  | cons d l ih => exact ih _ (tiene_codigo_plantar s d codigo h)

theorem tiene_codigo_foldl_mem (l : List (String × String × String)) (s : Sess)
    (d : String × String × String) (hd : d ∈ l) :
    tiene_codigo (l.foldl plantar_cuenta s) d.1 := by
  induction l generalizing s with
  | nil => cases hd
  | cons e l ih =>
    rcases List.mem_cons.1 hd with rfl | hd
    · exact tiene_codigo_foldl l _ _ (tiene_codigo_plantar_self s d)
    · exact ih _ hd

theorem tiene_codigo_commit (s : Sess) (codigo : String) :
    tiene_codigo s.commit codigo ↔ tiene_codigo s codigo := by
  simp [tiene_codigo, Sess.visible_commit]

theorem tiene_codigo_inicializar (s : Sess) (d : String × String × String)
    (hd : d ∈ cuentas_basicas) :
    tiene_codigo (inicializar_plan_cuentas s) d.1 := by
  rw [inicializar_plan_cuentas, tiene_codigo_commit]
  exact tiene_codigo_foldl_mem _ s d hd

theorem plantar_cuenta_fix (s : Sess) (d : String × String × String)
    (h : tiene_codigo s d.1) : plantar_cuenta s d = s := by
  unfold plantar_cuenta
  rcases hq : obtener_cuenta_por_codigo s d.1 with _ | c
  · exact absurd h ((obtener_cuenta_eq_none_iff s d.1).1 hq)
  · rfl

theorem foldl_plantar_fix (l : List (String × String × String)) (s : Sess)
    (h : ∀ d ∈ l, tiene_codigo s d.1) : l.foldl plantar_cuenta s = s := by
  induction l with
  | nil => rfl
  | cons d l ih =>
    rw [List.foldl_cons, plantar_cuenta_fix s d (h d (by simp))]
    exact ih (fun e he => h e (by simp [he]))

theorem Sess.commit_of_pending_empty (s : Sess) (h : s.pending = DB.empty) :
    s.commit = s := by
  cases s with
  | mk committed pending nc na =>
    cases h
    simp [Sess.commit, DB.union, DB.empty]

theorem inicializar_pending_empty (s : Sess) :
    (inicializar_plan_cuentas s).pending = DB.empty := rfl

/-- After one seeding every basic code resolves. -/
theorem inicializar_fix (s : Sess)
    (h : ∀ d ∈ cuentas_basicas, tiene_codigo s d.1) :
    inicializar_plan_cuentas s = s.commit := by
  rw [inicializar_plan_cuentas, foldl_plantar_fix _ s h]

/-- The accounts the seeding loop adds: existing rows are untouched, and each
added row carries a basic code that the starting session could not resolve. -/
theorem foldl_plantar_cuentas (l : List (String × String × String)) (s : Sess) :
    ∃ nuevas,
      (l.foldl plantar_cuenta s).visible.cuentas = s.visible.cuentas ++ nuevas ∧
      ∀ c ∈ nuevas, c.codigo ∈ l.map (fun d => d.1) ∧ ¬ tiene_codigo s c.codigo := by
  induction l generalizing s with
  | nil => exact ⟨[], by simp⟩
  | cons d l ih =>
    rw [List.foldl_cons]
    rcases hq : obtener_cuenta_por_codigo s d.1 with _ | c
    · rw [plantar_cuenta_none s d hq]
      obtain ⟨nuevas, hn, hprop⟩ := ih (s.addCuenta d.1 d.2.1 d.2.2)
      refine ⟨⟨s.nextCuentaId, d.1, d.2.1, d.2.2⟩ :: nuevas, ?_, ?_⟩
      · rw [hn, Sess.visible_addCuenta]
        simp
      · intro c hc
        rcases List.mem_cons.1 hc with rfl | hc
        · exact ⟨by simp, (obtener_cuenta_eq_none_iff s d.1).1 hq⟩
        · obtain ⟨h1, h2⟩ := hprop c hc
          refine ⟨by simp [h1], fun hty => h2 ?_⟩
          obtain ⟨e, he, hee⟩ := hty
          exact ⟨e, by simp [Sess.visible_addCuenta, he], hee⟩
    · rw [plantar_cuenta_some s d c hq]
      obtain ⟨nuevas, hn, hprop⟩ := ih s
      exact ⟨nuevas, hn, fun c hc => ⟨by simp [(hprop c hc).1], (hprop c hc).2⟩⟩

/-! ## Lemmas about what the seeding and the entry loop touch -/

theorem plantar_cuenta_visible_apuntes (s : Sess) (d : String × String × String) :
    (plantar_cuenta s d).visible.apuntes = s.visible.apuntes := by
  rcases hq : obtener_cuenta_por_codigo s d.1 with _ | c
  · rw [plantar_cuenta_none s d hq, Sess.visible_addCuenta]
  · rw [plantar_cuenta_some s d c hq]

theorem plantar_cuenta_visible_asientos (s : Sess) (d : String × String × String) :
    (plantar_cuenta s d).visible.asientos = s.visible.asientos := by
  rcases hq : obtener_cuenta_por_codigo s d.1 with _ | c
  · rw [plantar_cuenta_none s d hq, Sess.visible_addCuenta]
  · rw [plantar_cuenta_some s d c hq]

theorem foldl_plantar_visible_apuntes (l : List (String × String × String))
    (s : Sess) :
    (l.foldl plantar_cuenta s).visible.apuntes = s.visible.apuntes := by
  induction l generalizing s with
  | nil => rfl
  | cons d l ih => rw [List.foldl_cons, ih, plantar_cuenta_visible_apuntes]

theorem foldl_plantar_visible_asientos (l : List (String × String × String))
    (s : Sess) :
    (l.foldl plantar_cuenta s).visible.asientos = s.visible.asientos := by
  induction l generalizing s with
  | nil => rfl
  | cons d l ih => rw [List.foldl_cons, ih, plantar_cuenta_visible_asientos]

theorem inicializar_visible_apuntes (s : Sess) :
    (inicializar_plan_cuentas s).visible.apuntes = s.visible.apuntes := by
  rw [inicializar_plan_cuentas, Sess.visible_commit, foldl_plantar_visible_apuntes]

theorem inicializar_visible_asientos (s : Sess) :
    (inicializar_plan_cuentas s).visible.asientos = s.visible.asientos := by
  rw [inicializar_plan_cuentas, Sess.visible_commit, foldl_plantar_visible_asientos]

theorem obtener_cuenta_congr (s s' : Sess)
    (h : s'.visible.cuentas = s.visible.cuentas) (codigo : String) :
    obtener_cuenta_por_codigo s' codigo = obtener_cuenta_por_codigo s codigo := by
  unfold obtener_cuenta_por_codigo; rw [h]

theorem Sess.visible_addApunte_cuentas (s : Sess) (a : Apunte) :
    (s.addApunte a).visible.cuentas = s.visible.cuentas := by
  rw [Sess.visible_addApunte]

theorem Sess.visible_flushAsiento (s : Sess) (d : String) (uid : ℕ)
    (ref : Option ℕ) :
    (s.flushAsiento d uid ref).visible =
      ⟨s.visible.cuentas,
       s.visible.asientos ++ [⟨s.nextAsientoId, d, uid, ref⟩],
       s.visible.apuntes⟩ := by
  simp [Sess.flushAsiento, Sess.visible, DB.union]

theorem Sess.visible_cuentas_flushAsiento (s : Sess) (d : String) (uid : ℕ)
    (ref : Option ℕ) :
    (s.flushAsiento d uid ref).visible.cuentas = s.visible.cuentas := by
  rw [Sess.visible_flushAsiento]

/-- Appending lines whose per-account debit and credit totals agree does not
change any account balance. -/
theorem obtener_saldo_ext (s s' : Sess) (rows : List Apunte)
    (hc : s'.visible.cuentas = s.visible.cuentas)
    (ha : s'.visible.apuntes = s.visible.apuntes ++ rows)
    (hbal : ∀ cid : ℕ,
      ((rows.filter (fun a => a.cuenta_id == cid)).map (·.debe)).sum =
      ((rows.filter (fun a => a.cuenta_id == cid)).map (·.haber)).sum)
    (cid : ℕ) :
    obtener_saldo_cuenta s' cid = obtener_saldo_cuenta s cid := by
  unfold obtener_saldo_cuenta
  rw [hc, ha]
  rcases hf : s.visible.cuentas.find? (fun c => c.id == cid) with _ | c
  · simp only [hf]
  · simp only [hf, List.filter_append, List.map_append, List.sum_append]
    split <;> linarith [hbal cid]

theorem crear_apuntes_nil (asiento_id : ℕ) (s : Sess) :
    crear_apuntes asiento_id s [] = (s, none) := rfl

theorem crear_apuntes_cons_some (asiento_id : ℕ) (s : Sess) (a : ApunteData)
    (rest : List ApunteData) (c : Cuenta)
    (h : obtener_cuenta_por_codigo s a.cuenta_codigo = some c) :
    crear_apuntes asiento_id s (a :: rest) =
      crear_apuntes asiento_id
        (s.addApunte ⟨asiento_id, c.id, a.debe, a.haber⟩) rest := by
  rw [crear_apuntes]
  simp only [h]

/-- Booking a balanced two-line entry (`monto` debited to `c1`, credited to
`c2`) when both codes resolve: the header and both lines are added in
order. -/
theorem crear_asiento_dos_lineas (s : Sess) (descripcion : String)
    (usuario_id : ℕ) (referencia_id : Option ℕ) (c1 c2 : String) (x y : Cuenta)
    (monto : ℚ)
    (h1 : obtener_cuenta_por_codigo s c1 = some x)
    (h2 : obtener_cuenta_por_codigo s c2 = some y) :
    crear_asiento s descripcion usuario_id referencia_id
        [⟨c1, monto, 0⟩, ⟨c2, 0, monto⟩] =
      (((s.flushAsiento descripcion usuario_id referencia_id).addApunte
          ⟨s.nextAsientoId, x.id, monto, 0⟩).addApunte
          ⟨s.nextAsientoId, y.id, 0, monto⟩,
        .ok s.nextAsientoId) := by
  have hc1 : obtener_cuenta_por_codigo
      (s.flushAsiento descripcion usuario_id referencia_id) c1 = some x := by
    rw [obtener_cuenta_congr s _ (by rw [Sess.visible_flushAsiento]) c1, h1]
  have hc2 : obtener_cuenta_por_codigo
      ((s.flushAsiento descripcion usuario_id referencia_id).addApunte
        ⟨s.nextAsientoId, x.id, monto, 0⟩) c2 = some y := by
    rw [obtener_cuenta_congr s _
      (by rw [Sess.visible_addApunte_cuentas, Sess.visible_flushAsiento]) c2, h2]
  rw [crear_asiento]
  rw [if_neg (by simp)]
  rw [crear_apuntes_cons_some _ _ _ _ x hc1,
    crear_apuntes_cons_some _ _ _ _ y hc2, crear_apuntes_nil]

/-- A balanced two-line entry whose second code never resolves: the header
and the first line are flushed, the re-seed runs (committing the pending
work), and the call raises with the unknown code. -/
theorem crear_asiento_segunda_desconocida (s : Sess) (descripcion : String)
    (usuario_id : ℕ) (referencia_id : Option ℕ) (c1 cbad : String) (x : Cuenta)
    (monto : ℚ)
    (h1 : obtener_cuenta_por_codigo
      (s.flushAsiento descripcion usuario_id referencia_id) c1 = some x)
    (hbad : obtener_cuenta_por_codigo
      ((s.flushAsiento descripcion usuario_id referencia_id).addApunte
        ⟨s.nextAsientoId, x.id, monto, 0⟩) cbad = none)
    (hbad2 : obtener_cuenta_por_codigo (inicializar_plan_cuentas
      ((s.flushAsiento descripcion usuario_id referencia_id).addApunte
        ⟨s.nextAsientoId, x.id, monto, 0⟩)) cbad = none) :
    crear_asiento s descripcion usuario_id referencia_id
        [⟨c1, monto, 0⟩, ⟨cbad, 0, monto⟩] =
      (inicializar_plan_cuentas
        ((s.flushAsiento descripcion usuario_id referencia_id).addApunte
          ⟨s.nextAsientoId, x.id, monto, 0⟩),
        .error (.cuentaNoEncontrada cbad)) := by
  rw [crear_asiento]
  rw [if_neg (by simp)]
  rw [crear_apuntes_cons_some _ _ _ _ x h1]
  rw [crear_apuntes]
  simp only [hbad, hbad2]

theorem crear_apuntes_cons_none_none (asiento_id : ℕ) (s : Sess)
    (a : ApunteData) (rest : List ApunteData)
    (h : obtener_cuenta_por_codigo s a.cuenta_codigo = none)
    (h2 : obtener_cuenta_por_codigo (inicializar_plan_cuentas s)
      a.cuenta_codigo = none) :
    crear_apuntes asiento_id s (a :: rest) =
      (inicializar_plan_cuentas s,
        some (.cuentaNoEncontrada a.cuenta_codigo)) := by
  rw [crear_apuntes]
  simp only [h, h2]

theorem tiene_codigo_congr (s s' : Sess)
    (h : s'.visible.cuentas = s.visible.cuentas) (codigo : String) :
    tiene_codigo s' codigo ↔ tiene_codigo s codigo := by
  unfold tiene_codigo
  rw [h]

/-- A successful run of the line loop appends exactly the requested lines
(resolved to account ids) to the visible rows. -/
theorem crear_apuntes_ok (asiento_id : ℕ) (datos : List ApunteData) :
    ∀ s s' : Sess, crear_apuntes asiento_id s datos = (s', none) →
    ∃ rows : List Apunte,
      s'.visible.apuntes = s.visible.apuntes ++ rows ∧
      rows.map (·.debe) = datos.map (·.debe) ∧
      rows.map (·.haber) = datos.map (·.haber) := by
  induction datos with
  | nil =>
    intro s s' h
    simp only [crear_apuntes, Prod.mk.injEq] at h
    exact ⟨[], by simp [h.1], rfl, rfl⟩
  | cons a rest ih =>
    intro s s' h
    rw [crear_apuntes] at h
    rcases hq : obtener_cuenta_por_codigo s a.cuenta_codigo with _ | c
    · simp only [hq] at h
      rcases hq2 : obtener_cuenta_por_codigo (inicializar_plan_cuentas s)
          a.cuenta_codigo with _ | c
      · simp only [hq2] at h
        simp at h
      · simp only [hq2] at h
        obtain ⟨rows, hr, hd, hh⟩ := ih _ _ h
        refine ⟨⟨asiento_id, c.id, a.debe, a.haber⟩ :: rows, ?_, by simp [hd], by simp [hh]⟩
        rw [hr, Sess.visible_addApunte]
        simp [inicializar_visible_apuntes]
    · simp only [hq] at h
      obtain ⟨rows, hr, hd, hh⟩ := ih _ _ h
      refine ⟨⟨asiento_id, c.id, a.debe, a.haber⟩ :: rows, ?_, by simp [hd], by simp [hh]⟩
      rw [hr, Sess.visible_addApunte]
      simp

/-- A successful `crear_asiento` call appends a block of lines whose debit
total equals its credit total, and touches no existing line. -/
theorem crear_asiento_ok (s s' : Sess) (descripcion : String) (usuario_id : ℕ)
    (referencia_id : Option ℕ) (datos : List ApunteData) (id : ℕ)
    (h : crear_asiento s descripcion usuario_id referencia_id datos =
      (s', .ok id)) :
    ∃ rows : List Apunte,
      s'.visible.apuntes = s.visible.apuntes ++ rows ∧
      (rows.map (·.debe)).sum = (rows.map (·.haber)).sum := by
  rw [crear_asiento] at h
  by_cases hb : (datos.map (·.debe)).sum ≠ (datos.map (·.haber)).sum
  · rw [if_pos hb] at h
    simp at h
  · rw [if_neg hb] at h
    push_neg at hb
    split at h
    next s2 heq =>
      simp only [Prod.mk.injEq] at h
      obtain ⟨rows, hr, hd, hh⟩ := crear_apuntes_ok _ _ _ _ heq
      refine ⟨rows, ?_, by rw [hd, hh, hb]⟩
      rw [← h.1, hr]
      simp [Sess.visible, DB.union, Sess.flushAsiento]
    next s2 e heq => simp at h

/-! ## Calendar arithmetic -/

theorem daysBeforeMonth_one (y : ℕ) : daysBeforeMonth y 1 = 0 := by
  simp [daysBeforeMonth]

theorem daysInMonth_pos (y m : ℕ) (h1 : 1 ≤ m) (h2 : m ≤ 12) :
    1 ≤ daysInMonth y m := by
  interval_cases m <;> cases hl : isLeap y <;> simp [daysInMonth, hl]

theorem daysBeforeMonth_add_daysInMonth_le (y m : ℕ) (h1 : 1 ≤ m)
    (h2 : m ≤ 12) :
    daysBeforeMonth y m + daysInMonth y m ≤
      365 + (if isLeap y then 1 else 0) := by
  interval_cases m <;> cases hl : isLeap y <;> simp [daysBeforeMonth, daysInMonth, hl]

theorem daysBeforeMonth_lt (y m1 m2 : ℕ) (h1 : 1 ≤ m1) (h12 : m1 < m2)
    (h2 : m2 ≤ 12) :
    daysBeforeMonth y m1 + daysInMonth y m1 ≤ daysBeforeMonth y m2 := by
  have hm1' : m1 ≤ 11 := by omega
  interval_cases m1 <;> interval_cases m2 <;> cases hl : isLeap y <;>
    simp [daysBeforeMonth, daysInMonth, hl]

/-- The value of `_days_before_year` grows by exactly the length of the year. -/
theorem daysBeforeYear_succ (y : ℕ) (hy : 1 ≤ y) :
    daysBeforeYear (y + 1) =
      daysBeforeYear y + 365 + (if isLeap y then 1 else 0) := by
  obtain ⟨n, rfl⟩ : ∃ n, y = n + 1 := ⟨y - 1, by omega⟩
  have hiff : isLeap (n + 1) = true ↔
      ((n + 1) % 4 = 0 ∧ ((n + 1) % 100 ≠ 0 ∨ (n + 1) % 400 = 0)) := by
    simp [isLeap]
  unfold daysBeforeYear
  simp only [Nat.add_sub_cancel]
  cases hl : isLeap (n + 1) with
  | false =>
    rw [hl] at hiff
    simp only [Bool.false_eq_true, false_iff] at hiff
    simp only [hl, Bool.false_eq_true, if_false]
    push_cast
    omega
  | true =>
    rw [hl] at hiff
    simp only [true_iff] at hiff
    simp only [hl, if_true]
    push_cast
    omega

theorem ymd2ord_jan1 (y : ℕ) : ymd2ord y 1 1 = daysBeforeYear y + 1 := by
  simp [ymd2ord, daysBeforeMonth_one]

/-- January-1st ordinals of consecutive years differ by the year length. -/
theorem ymd2ord_jan1_succ_bounds (y : ℕ) (hy : 1 ≤ y) :
    ymd2ord y 1 1 + 365 ≤ ymd2ord (y + 1) 1 1 ∧
      ymd2ord (y + 1) 1 1 ≤ ymd2ord y 1 1 + 366 := by
  rw [ymd2ord_jan1, ymd2ord_jan1]
  have h := daysBeforeYear_succ y hy
  split_ifs at h <;> omega

theorem ymd2ord_jan1_mono (y1 y2 : ℕ) (h1 : 1 ≤ y1) (h : y1 ≤ y2) :
    ymd2ord y1 1 1 ≤ ymd2ord y2 1 1 := by
  induction y2 with
  | zero => omega
  | succ n ih =>
    rcases Nat.lt_or_ge y1 (n + 1) with hlt | hge
    · have hn : 1 ≤ n := by omega
      have := ymd2ord_jan1_succ_bounds n hn
      have := ih (by omega)
      omega
    · have : y1 = n + 1 := by omega
      rw [this]

/-- A valid date's ordinal lies between the New Years surrounding it. -/
theorem ymd2ord_bounds (f : Fecha) (hv : f.valida) :
    ymd2ord f.year 1 1 ≤ ymd2ord f.year f.month f.day ∧
      ymd2ord f.year f.month f.day + 1 ≤ ymd2ord (f.year + 1) 1 1 := by
  obtain ⟨hy, hm1, hm2, hd1, hd2⟩ := hv
  have hdbm := daysBeforeMonth_add_daysInMonth_le f.year f.month hm1 hm2
  have hsucc := daysBeforeYear_succ f.year hy
  rw [ymd2ord_jan1, ymd2ord_jan1]
  unfold ymd2ord
  split_ifs at hdbm hsucc <;> omega

/-- Chronological order of valid dates is reflected by their ordinals. -/
theorem ymd2ord_mono (f g : Fecha) (hf : f.valida) (hg : g.valida)
    (hle : f.le g) :
    ymd2ord f.year f.month f.day ≤ ymd2ord g.year g.month g.day := by
  rcases hle with hy | ⟨hy, hm | ⟨hm, hd⟩⟩
  · have h1 := (ymd2ord_bounds f hf).2
    have h2 := (ymd2ord_bounds g hg).1
    have h3 := ymd2ord_jan1_mono (f.year + 1) g.year (by omega) (by omega)
    omega
  · have hcum := daysBeforeMonth_lt g.year f.month g.month hf.2.1 hm hg.2.2.1
    have hd2 : f.day ≤ daysInMonth g.year f.month := by
      rw [← hy]; exact hf.2.2.2.2
    have hd1g : 1 ≤ g.day := hg.2.2.2.1
    unfold ymd2ord
    rw [hy]
    omega
  · unfold ymd2ord
    rw [hy, hm]
    omega

/-! ## The ISO week algorithm -/

theorem isoweek1monday_bounds (y : ℕ) :
    ymd2ord y 1 1 - 3 ≤ isoweek1monday y ∧
      isoweek1monday y ≤ ymd2ord y 1 1 + 3 := by
  simp only [isoweek1monday]
  split_ifs <;> omega

theorem isoweek1monday_mod7 (y : ℕ) : isoweek1monday y % 7 = 1 := by
  simp only [isoweek1monday]
  split_ifs <;> omega

theorem isoweek1monday_succ (y : ℕ) (hy : 1 ≤ y) :
    isoweek1monday y + 364 ≤ isoweek1monday (y + 1) ∧
      isoweek1monday (y + 1) ≤ isoweek1monday y + 371 := by
  have h1 := isoweek1monday_bounds y
  have h2 := isoweek1monday_bounds (y + 1)
  have h3 := ymd2ord_jan1_succ_bounds y hy
  have h4 := isoweek1monday_mod7 y
  have h5 := isoweek1monday_mod7 (y + 1)
  omega

theorem isoweek1monday_mono (y1 y2 : ℕ) (h1 : 1 ≤ y1) (h : y1 ≤ y2) :
    isoweek1monday y1 ≤ isoweek1monday y2 := by
  induction y2 with
  | zero => omega
  | succ n ih =>
    rcases Nat.lt_or_ge y1 (n + 1) with hlt | hge
    · have hn : 1 ≤ n := by omega
      have := isoweek1monday_succ n hn
      have := ih (by omega)
      omega
    · have : y1 = n + 1 := by omega
      rw [this]

theorem tupleLeB_single (a b : ℤ) : tupleLeB [a] [b] = true ↔ a ≤ b := by
  simp only [tupleLeB]
  split_ifs <;> simp <;> omega

theorem tupleLeB_pair (a1 b1 a2 b2 : ℤ) :
    tupleLeB [a1, b1] [a2, b2] = true ↔
      (a1 < a2 ∨ (a1 = a2 ∧ b1 ≤ b2)) := by
  simp only [tupleLeB]
  split_ifs <;> simp <;> omega

theorem tupleLeB_triple (a1 b1 c1 a2 b2 c2 : ℤ) :
    tupleLeB [a1, b1, c1] [a2, b2, c2] = true ↔
      (a1 < a2 ∨ (a1 = a2 ∧ (b1 < b2 ∨ (b1 = b2 ∧ c1 ≤ c2)))) := by
  simp only [tupleLeB]
  split_ifs <;> simp <;> omega

/-- The ISO pair the algorithm returns is canonical: the ISO year `k` is
the unique year whose week-1 Monday block contains the date, and the week
counts whole weeks from that Monday. -/
theorem isocalendar_charact (f : Fecha) (hv : f.valida) :
    ∃ k : ℕ, 1 ≤ k ∧
      isocalendar f =
        ((k : ℤ),
          (ymd2ord f.year f.month f.day - isoweek1monday k) / 7 + 1) ∧
      isoweek1monday k ≤ ymd2ord f.year f.month f.day ∧
      ymd2ord f.year f.month f.day < isoweek1monday (k + 1) := by
  have hy : 1 ≤ f.year := hv.1
  have hb := ymd2ord_bounds f hv
  have hw1 := isoweek1monday_bounds f.year
  have hw1s := isoweek1monday_bounds (f.year + 1)
  have hsucc := isoweek1monday_succ f.year hy
  have hj := ymd2ord_jan1_succ_bounds f.year hy
  simp only [isocalendar]
  by_cases hb1 :
      (ymd2ord f.year f.month f.day - isoweek1monday f.year) / 7 < 0
  · -- the date belongs to the last ISO week of the previous year
    have hn : ymd2ord f.year f.month f.day < isoweek1monday f.year := by
      omega
    have hy2 : 2 ≤ f.year := by
      rcases Nat.lt_or_ge f.year 2 with h2 | h2
      · exfalso
        have h1 : f.year = 1 := by omega
        rw [h1] at hn hb
        have e1 : isoweek1monday 1 = 1 := by decide
        have e2 : ymd2ord 1 1 1 = 1 := by decide
        omega
      · exact h2
    have hprevb := isoweek1monday_bounds (f.year - 1)
    have hjp := ymd2ord_jan1_succ_bounds (f.year - 1) (by omega)
    have hyy : f.year - 1 + 1 = f.year := by omega
    rw [hyy] at hjp
    refine ⟨f.year - 1, by omega, ?_, ?_, ?_⟩
    · rw [if_pos hb1]
      simp only [Prod.mk.injEq]
      exact ⟨by omega, trivial⟩
    · omega
    · rw [hyy]
      exact hn
  · push_neg at hb1
    have hge : isoweek1monday f.year ≤ ymd2ord f.year f.month f.day := by
      omega
    by_cases hb2 :
        52 ≤ (ymd2ord f.year f.month f.day - isoweek1monday f.year) / 7 ∧
          isoweek1monday (f.year + 1) ≤ ymd2ord f.year f.month f.day
    · have hnext := isoweek1monday_succ (f.year + 1) (by omega)
      refine ⟨f.year + 1, by omega, ?_, hb2.2, ?_⟩
      · rw [if_neg (by omega), if_pos hb2]
        simp only [Prod.mk.injEq]
        refine ⟨by push_cast; ring, ?_⟩
        have h02 : 0 ≤ ymd2ord f.year f.month f.day -
            isoweek1monday (f.year + 1) ∧
            ymd2ord f.year f.month f.day - isoweek1monday (f.year + 1) ≤ 2 := by
          omega
        omega
      · omega
    · refine ⟨f.year, by omega, ?_, hge, ?_⟩
      · rw [if_neg (by omega), if_neg hb2]
      · rcases not_and_or.mp hb2 with h | h
        · push_neg at h
          omega
        · push_neg at h
          exact h

/-- Chronologically ordered dates get lexicographically ordered ISO pairs. -/
theorem isocalendar_mono (f g : Fecha) (hf : f.valida) (hg : g.valida)
    (hord : ymd2ord f.year f.month f.day ≤ ymd2ord g.year g.month g.day) :
    (isocalendar f).1 < (isocalendar g).1 ∨
      ((isocalendar f).1 = (isocalendar g).1 ∧
        (isocalendar f).2 ≤ (isocalendar g).2) := by
  obtain ⟨k1, hk1, he1, hl1, hr1⟩ := isocalendar_charact f hf
  obtain ⟨k2, hk2, he2, hl2, hr2⟩ := isocalendar_charact g hg
  rcases Nat.lt_trichotomy k1 k2 with hk | hk | hk
  · left
    simp only [he1, he2]
    exact_mod_cast hk
  · subst hk
    right
    simp only [he1, he2]
    exact ⟨trivial, by omega⟩
  · exfalso
    have hmono := isoweek1monday_mono (k2 + 1) k1 (by omega) (by omega)
    omega

/-! ## Theorems on the costing function -/

/-- Claim C8:  `calcular_pmp` returns the incoming cost when there is no
current stock (`cantidad_actual ≤ 0`); otherwise, whenever the post-movement
quantity is non-zero, it returns the weighted average
`((q·c)+(qn·cn))/(q+qn)` rounded to two decimal places; and the spec's two
concrete instances evaluate as stated. -/
theorem calcular_pmp_spec (q c qn cn : ℚ) :
    (q ≤ 0 → calcular_pmp q c qn cn = cn) ∧
    (0 < q → q + qn ≠ 0 →
      calcular_pmp q c qn cn = quantize2 ((q * c + qn * cn) / (q + qn))) ∧
    calcular_pmp 0 0 5 12 = 12 ∧ calcular_pmp 10 10 10 20 = 15 := by
  refine ⟨fun h => by simp [calcular_pmp, h], fun h h0 => ?_, ?_, ?_⟩
  · rw [calcular_pmp, if_neg (by linarith), if_neg h0]
  · norm_num [calcular_pmp]
  · norm_num [calcular_pmp, quantize2, roundHalfEven]

/-- Witness for claim C8 at the spec's concrete inputs. -/
theorem calcular_pmp_spec_witness :
    calcular_pmp 10 10 10 20 = quantize2 ((10 * 10 + 10 * 20) / (10 + 10)) :=
  (calcular_pmp_spec 10 10 10 20).2.1 (by norm_num) (by norm_num)

/-- Claim C9, counterexample:  At `current_qty = 5`, `incoming_qty = -5` the
post-movement quantity is zero, yet `calcular_pmp` does not fail with a
division by zero: the explicit `cantidad_total == 0` guard returns
`Decimal(0)` as an ordinary value. -/
theorem calcular_pmp_total_cero_counterexample :
    calcular_pmp 5 10 (-5) 3 = 0 := by
  norm_num [calcular_pmp]

/-- Claim C9, amended:  When `current_qty + incoming_qty = 0`, `calcular_pmp`
never divides by zero: it returns `incoming_cost` if `current_qty ≤ 0` and
otherwise returns `Decimal(0)` through its explicit guard. -/
theorem calcular_pmp_total_cero (q c qn cn : ℚ) (h : q + qn = 0) :
    calcular_pmp q c qn cn = if q ≤ 0 then cn else 0 := by
  by_cases hq : q ≤ 0
  · simp [calcular_pmp, hq]
  · simp [calcular_pmp, hq, h]

/-- Witness for the amended claim C9. -/
theorem calcular_pmp_total_cero_witness :
    calcular_pmp 5 10 (-5) 3 = if (5:ℚ) ≤ 0 then 3 else 0 :=
  calcular_pmp_total_cero 5 10 (-5) 3 (by norm_num)

/-! ## Theorems on `crear_asiento` and `obtener_saldo_cuenta` -/

/-- Claim C2:  When the debit total of `apuntes_data` differs from its credit
total, `crear_asiento` raises the unbalanced-entry error carrying both
totals and returns the session exactly as it was: no entry and no line is
added, pending or committed, so nothing can be persisted. -/
theorem crear_asiento_descuadrado (s : Sess) (descripcion : String)
    (usuario_id : ℕ) (referencia_id : Option ℕ) (apuntes_data : List ApunteData)
    (h : (apuntes_data.map (·.debe)).sum ≠ (apuntes_data.map (·.haber)).sum) :
    crear_asiento s descripcion usuario_id referencia_id apuntes_data =
      (s, .error (.descuadrado (apuntes_data.map (·.debe)).sum
                               (apuntes_data.map (·.haber)).sum)) := by
  simp [crear_asiento, h]

/-- Witness for claim C2: the spec's `[{debit 100, credit 0}, {debit 0,
credit 90}]` input fails with `descuadrado 100 90` leaving the empty
session untouched. -/
theorem crear_asiento_descuadrado_witness :
    crear_asiento Sess.empty "venta" 1 none
        [⟨"570", 100, 0⟩, ⟨"700", 0, 90⟩] =
      (Sess.empty, .error (.descuadrado 100 90)) := by
  have h := crear_asiento_descuadrado Sess.empty "venta" 1 none
    [⟨"570", 100, 0⟩, ⟨"700", 0, 90⟩] (by norm_num)
  rw [h]
  norm_num

/-- Claim C10:  `crear_asiento` with an empty `apuntes_data` list succeeds:
both totals are the empty sum `0`, the balance check passes, and the entry
is created with its header pending and no line at all, returning the fresh
entry id. -/
theorem crear_asiento_apuntes_vacios (s : Sess) (descripcion : String)
    (usuario_id : ℕ) (referencia_id : Option ℕ) :
    crear_asiento s descripcion usuario_id referencia_id [] =
      (s.flushAsiento descripcion usuario_id referencia_id,
        .ok s.nextAsientoId) := by
  simp [crear_asiento, crear_apuntes]

/-- Claim C6:  Seeding the chart of accounts is idempotent: a second run of
`inicializar_plan_cuentas` returns exactly the same session (same accounts,
no duplicates, and — commits of an unchanged session being no-ops — no
error); moreover the first run leaves every pre-existing row untouched and
only ever adds rows for basic codes the session could not resolve. -/
theorem inicializar_plan_cuentas_idempotente (s : Sess) :
    inicializar_plan_cuentas (inicializar_plan_cuentas s) =
      inicializar_plan_cuentas s ∧
    ∃ nuevas,
      (inicializar_plan_cuentas s).visible.cuentas =
        s.visible.cuentas ++ nuevas ∧
      ∀ c ∈ nuevas, c.codigo ∈ cuentas_basicas.map (fun d => d.1) ∧
        ¬ tiene_codigo s c.codigo := by
  constructor
  · rw [inicializar_fix _ (fun d hd => tiene_codigo_inicializar s d hd)]
    exact Sess.commit_of_pending_empty _ (inicializar_pending_empty s)
  · obtain ⟨nuevas, hn, hp⟩ := foldl_plantar_cuentas cuentas_basicas s
    exact ⟨nuevas, by rw [inicializar_plan_cuentas, Sess.visible_commit, hn], hp⟩

/-- Claim C3:  `obtener_saldo_cuenta` follows the sign convention: debit minus
credit for `ACTIVO`/`GASTO` accounts, credit minus debit for
`PASIVO`/`PATRIMONIO`/`INGRESO` accounts; and on the spec's instances an
asset account with debit 100 / credit 30 has balance 70 while an income
account with debit 10 / credit 150 has balance 140. -/
theorem obtener_saldo_cuenta_spec :
    (∀ (s : Sess) (cuenta_id : ℕ) (cuenta : Cuenta),
      s.visible.cuentas.find? (fun c => c.id == cuenta_id) = some cuenta →
      ((cuenta.tipo = "ACTIVO" ∨ cuenta.tipo = "GASTO" →
        obtener_saldo_cuenta s cuenta_id =
          (((s.visible.apuntes.filter (fun a => a.cuenta_id == cuenta_id)).map
              (·.debe)).sum -
           ((s.visible.apuntes.filter (fun a => a.cuenta_id == cuenta_id)).map
              (·.haber)).sum)) ∧
       (cuenta.tipo = "PASIVO" ∨ cuenta.tipo = "PATRIMONIO" ∨
          cuenta.tipo = "INGRESO" →
        obtener_saldo_cuenta s cuenta_id =
          (((s.visible.apuntes.filter (fun a => a.cuenta_id == cuenta_id)).map
              (·.haber)).sum -
           ((s.visible.apuntes.filter (fun a => a.cuenta_id == cuenta_id)).map
              (·.debe)).sum)))) ∧
    obtener_saldo_cuenta saldoEjemplo 1 = 70 ∧
    obtener_saldo_cuenta saldoEjemplo 2 = 140 := by
  refine ⟨fun s cuenta_id cuenta hfind => ⟨fun htipo => ?_, fun htipo => ?_⟩, ?_, ?_⟩
  · rcases htipo with h | h <;> simp [obtener_saldo_cuenta, hfind, h]
  · rcases htipo with h | h | h <;> simp [obtener_saldo_cuenta, hfind, h]
  · simp [obtener_saldo_cuenta, saldoEjemplo, Sess.visible, DB.union, DB.empty,
      List.find?_cons, List.filter_cons]
    norm_num
  · simp [obtener_saldo_cuenta, saldoEjemplo, Sess.visible, DB.union, DB.empty,
      List.find?_cons, List.filter_cons]
    norm_num

/-- Witness for claim C3: the sign rule applied to the asset account of the
example ledger. -/
theorem obtener_saldo_cuenta_spec_witness :
    obtener_saldo_cuenta saldoEjemplo 1 =
      (((saldoEjemplo.visible.apuntes.filter (fun a => a.cuenta_id == 1)).map
          (·.debe)).sum -
       ((saldoEjemplo.visible.apuntes.filter (fun a => a.cuenta_id == 1)).map
          (·.haber)).sum) :=
  (obtener_saldo_cuenta_spec.1 saldoEjemplo 1 ⟨1, "570", "Caja", "ACTIVO"⟩
    rfl).1 (Or.inl rfl)

/-- Claim C1:  Balance invariant: in every ledger state reached from an empty
ledger by successfully completed `crear_asiento` calls (with the callers'
commits and any chart re-seedings), the sum of all debit amounts over all
entry lines equals the sum of all credit amounts. -/
theorem libro_cuadrado (s : Sess) (h : Alcanzable s) :
    ((s.visible.apuntes).map (·.debe)).sum =
      ((s.visible.apuntes).map (·.haber)).sum := by
  induction h with
  | inicial s h0 => rw [h0]; rfl
  | paso s s' descripcion uid ref datos id hs hc ih =>
    obtain ⟨rows, hr, hbal⟩ := crear_asiento_ok s s' descripcion uid ref datos id hc
    rw [hr, List.map_append, List.map_append, List.sum_append, List.sum_append,
      ih, hbal]
  | commit s hs ih => rw [Sess.visible_commit]; exact ih
  | seed s hs ih => rw [inicializar_visible_apuntes]; exact ih

/-- Witness for claim C1: the seeded chart followed by one balanced entry of
100 debited to cash (`570`, id 1) and credited to sales (`700`, id 8). -/
theorem libro_cuadrado_witness :
    (((((plan.flushAsiento "Venta" 1 none).addApunte
          ⟨1, 1, 100, 0⟩).addApunte
          ⟨1, 8, 0, 100⟩).visible.apuntes.map (·.debe)).sum : ℚ) =
      ((((plan.flushAsiento "Venta" 1 none).addApunte
          ⟨1, 1, 100, 0⟩).addApunte
          ⟨1, 8, 0, 100⟩).visible.apuntes.map (·.haber)).sum := by
  apply libro_cuadrado
  refine Alcanzable.paso plan _ "Venta" 1 none
    [⟨"570", 100, 0⟩, ⟨"700", 0, 100⟩] 1
    (Alcanzable.seed Sess.empty (Alcanzable.inicial Sess.empty rfl)) ?_
  exact crear_asiento_dos_lineas plan "Venta" 1 none "570" "700"
    ⟨1, "570", "Caja", "ACTIVO"⟩ ⟨8, "700", "Ventas de Mercaderías", "INGRESO"⟩
    100 rfl rfl

/-- Every basic code resolves against the seeded chart. -/
theorem plan_tiene_basicas : ∀ d ∈ cuentas_basicas, tiene_codigo plan d.1 := by
  intro d hd
  rw [← obtener_cuenta_isSome_iff]
  fin_cases hd <;> rfl

/-- Claim C4, code bug (the code violates the claim's no-persistence clause).  On the
seeded chart, a balanced entry whose second line names the unknown code
`999` fails with `Cuenta no encontrada: 999` — but the mid-loop re-seed has
already committed the flushed header and the first line, so even after the
caller's rollback the partial entry (header id 1 with the single
100-debit line) remains committed. -/
theorem crear_asiento_cuenta_desconocida_persiste :
    crear_asiento plan "Venta manual" 1 none
        [⟨"570", 100, 0⟩, ⟨"999", 0, 100⟩] =
      (((plan.flushAsiento "Venta manual" 1 none).addApunte
          ⟨1, 1, 100, 0⟩).commit,
        .error (.cuentaNoEncontrada "999")) ∧
    (((plan.flushAsiento "Venta manual" 1 none).addApunte
        ⟨1, 1, 100, 0⟩).commit.rollback.committed.asientos =
      [⟨1, "Venta manual", 1, none⟩]) ∧
    (((plan.flushAsiento "Venta manual" 1 none).addApunte
        ⟨1, 1, 100, 0⟩).commit.rollback.committed.apuntes =
      [⟨1, 1, 100, 0⟩]) := by
  have hcu : ((plan.flushAsiento "Venta manual" 1 none).addApunte
      ⟨1, 1, 100, 0⟩).visible.cuentas = plan.visible.cuentas := by
    rw [Sess.visible_addApunte_cuentas, Sess.visible_flushAsiento]
  have h570 : obtener_cuenta_por_codigo (plan.flushAsiento "Venta manual" 1 none)
      "570" = some ⟨1, "570", "Caja", "ACTIVO"⟩ := by
    rw [obtener_cuenta_congr plan _ (by rw [Sess.visible_flushAsiento]) "570"]
    rfl
  have h999 : obtener_cuenta_por_codigo ((plan.flushAsiento "Venta manual" 1
      none).addApunte ⟨1, 1, 100, 0⟩) "999" = none := by
    rw [obtener_cuenta_congr plan _ hcu "999"]
    rfl
  have hfix : inicializar_plan_cuentas ((plan.flushAsiento "Venta manual" 1
      none).addApunte ⟨1, 1, 100, 0⟩) =
      ((plan.flushAsiento "Venta manual" 1 none).addApunte
        ⟨1, 1, 100, 0⟩).commit :=
    inicializar_fix _ (fun d hd =>
      (tiene_codigo_congr plan _ hcu d.1).mpr (plan_tiene_basicas d hd))
  have hcommit_cu : ((plan.flushAsiento "Venta manual" 1 none).addApunte
      ⟨1, 1, 100, 0⟩).commit.visible.cuentas =
      ((plan.flushAsiento "Venta manual" 1 none).addApunte
        ⟨1, 1, 100, 0⟩).visible.cuentas := by
    rw [Sess.visible_commit]
  have h999b : obtener_cuenta_por_codigo (inicializar_plan_cuentas
      ((plan.flushAsiento "Venta manual" 1 none).addApunte ⟨1, 1, 100, 0⟩))
      "999" = none := by
    rw [hfix, obtener_cuenta_congr _ _ hcommit_cu "999", h999]
  refine ⟨?_, rfl, rfl⟩
  have hmain := crear_asiento_segunda_desconocida plan "Venta manual" 1 none
    "570" "999" ⟨1, "570", "Caja", "ACTIVO"⟩ 100 h570 h999 h999b
  have hsame : ((plan.flushAsiento "Venta manual" 1 none).addApunte
      ⟨plan.nextAsientoId, (⟨1, "570", "Caja", "ACTIVO"⟩ : Cuenta).id, 100, 0⟩) =
      ((plan.flushAsiento "Venta manual" 1 none).addApunte ⟨1, 1, 100, 0⟩) := rfl
  rw [hmain, hsame, hfix]

/-- Claim C7:  Sale / reversal round-trip: on the seeded chart, the two
balanced entries of `confirmar_compra` (cash 570 debited against sales 700;
cost 600 debited against inventory 300 when the cost is positive) followed,
after a commit, by the mirrored entries of `cancelar_pedido` with the same
quantity, price and cost, leave every account's balance exactly where it
started while the ledger retains all four entries. -/
theorem venta_y_cancelacion (uid pid uid2 ped : ℕ) (modelo : String)
    (cantidad : ℕ) (precio costo : ℚ)
    (hct : costo * (cantidad : ℚ) > 0) :
    confirmar_compra_asientos plan uid pid modelo cantidad precio costo =
      (sesionVentaCosto uid pid modelo cantidad precio costo, .ok ()) ∧
    cancelar_pedido_asientos
        (sesionVentaCosto uid pid modelo cantidad precio costo).commit
        uid2 ped modelo ((cantidad : ℚ) * precio) cantidad costo =
      (sesionReversion uid pid uid2 ped modelo cantidad precio costo, .ok ()) ∧
    (∀ cid : ℕ,
      obtener_saldo_cuenta
        (sesionReversion uid pid uid2 ped modelo cantidad precio costo).commit
        cid = obtener_saldo_cuenta plan cid) ∧
    (sesionReversion uid pid uid2 ped modelo cantidad precio
        costo).commit.visible.asientos.length =
      plan.visible.asientos.length + 4 := by
  have hstep1 : crear_asiento plan (s!"Venta de {modelo} (x{cantidad})") uid
      (some pid) [⟨"570", (cantidad : ℚ) * precio, 0⟩,
        ⟨"700", 0, (cantidad : ℚ) * precio⟩] =
      (sesionVenta uid pid modelo cantidad precio, .ok 1) := by
    rw [crear_asiento_dos_lineas plan _ uid (some pid) "570" "700"
      ⟨1, "570", "Caja", "ACTIVO"⟩
      ⟨8, "700", "Ventas de Mercaderías", "INGRESO"⟩
      ((cantidad : ℚ) * precio) rfl rfl]
    rfl
  have hA1cu : (sesionVenta uid pid modelo cantidad precio).visible.cuentas =
      plan.visible.cuentas := by
    simp [sesionVenta, Sess.visible_addApunte_cuentas,
      Sess.visible_cuentas_flushAsiento]
  have hstep2 : crear_asiento (sesionVenta uid pid modelo cantidad precio)
      (s!"Costo Venta {modelo}") uid (some pid)
      [⟨"600", costo * (cantidad : ℚ), 0⟩, ⟨"300", 0, costo * (cantidad : ℚ)⟩] =
      (sesionVentaCosto uid pid modelo cantidad precio costo, .ok 2) := by
    rw [crear_asiento_dos_lineas _ _ uid (some pid) "600" "300"
      ⟨9, "600", "Compras de Mercaderías", "GASTO"⟩
      ⟨3, "300", "Inventario de Mercaderías", "ACTIVO"⟩
      (costo * (cantidad : ℚ))
      (by rw [obtener_cuenta_congr plan _ hA1cu "600"]; rfl)
      (by rw [obtener_cuenta_congr plan _ hA1cu "300"]; rfl)]
    rfl
  have hconf : confirmar_compra_asientos plan uid pid modelo cantidad precio
      costo = (sesionVentaCosto uid pid modelo cantidad precio costo, .ok ()) := by
    rw [confirmar_compra_asientos]
    simp only [hstep1]
    rw [if_pos hct]
    simp only [hstep2]
  have hBcu : (sesionVentaCosto uid pid modelo cantidad precio
      costo).commit.visible.cuentas = plan.visible.cuentas := by
    simp [sesionVentaCosto, sesionVenta, Sess.visible_commit,
      Sess.visible_addApunte_cuentas, Sess.visible_cuentas_flushAsiento]
  have hstep3 : crear_asiento
      (sesionVentaCosto uid pid modelo cantidad precio costo).commit
      (s!"Cancelación Venta {modelo}") uid2 (some ped)
      [⟨"700", (cantidad : ℚ) * precio, 0⟩, ⟨"570", 0, (cantidad : ℚ) * precio⟩] =
      (sesionCancelacion uid pid uid2 ped modelo cantidad precio costo,
        .ok 3) := by
    rw [crear_asiento_dos_lineas _ _ uid2 (some ped) "700" "570"
      ⟨8, "700", "Ventas de Mercaderías", "INGRESO"⟩
      ⟨1, "570", "Caja", "ACTIVO"⟩
      ((cantidad : ℚ) * precio)
      (by rw [obtener_cuenta_congr plan _ hBcu "700"]; rfl)
      (by rw [obtener_cuenta_congr plan _ hBcu "570"]; rfl)]
    rfl
  have hCcu : (sesionCancelacion uid pid uid2 ped modelo cantidad precio
      costo).visible.cuentas = plan.visible.cuentas := by
    simp [sesionCancelacion, sesionVentaCosto, sesionVenta, Sess.visible_commit,
      Sess.visible_addApunte_cuentas, Sess.visible_cuentas_flushAsiento]
  have hstep4 : crear_asiento
      (sesionCancelacion uid pid uid2 ped modelo cantidad precio costo)
      (s!"Reversión Costo {modelo}") uid2 (some ped)
      [⟨"300", costo * (cantidad : ℚ), 0⟩, ⟨"600", 0, costo * (cantidad : ℚ)⟩] =
      (sesionReversion uid pid uid2 ped modelo cantidad precio costo,
        .ok 4) := by
    rw [crear_asiento_dos_lineas _ _ uid2 (some ped) "300" "600"
      ⟨3, "300", "Inventario de Mercaderías", "ACTIVO"⟩
      ⟨9, "600", "Compras de Mercaderías", "GASTO"⟩
      (costo * (cantidad : ℚ))
      (by rw [obtener_cuenta_congr plan _ hCcu "300"]; rfl)
      (by rw [obtener_cuenta_congr plan _ hCcu "600"]; rfl)]
    rfl
  have hcanc : cancelar_pedido_asientos
      (sesionVentaCosto uid pid modelo cantidad precio costo).commit
      uid2 ped modelo ((cantidad : ℚ) * precio) cantidad costo =
      (sesionReversion uid pid uid2 ped modelo cantidad precio costo,
        .ok ()) := by
    rw [cancelar_pedido_asientos]
    simp only [hstep3]
    rw [if_pos hct]
    simp only [hstep4]
  have hfincu : (sesionReversion uid pid uid2 ped modelo cantidad precio
      costo).commit.visible.cuentas = plan.visible.cuentas := by
    simp [sesionReversion, sesionCancelacion, sesionVentaCosto, sesionVenta,
      Sess.visible_commit, Sess.visible_addApunte_cuentas,
      Sess.visible_cuentas_flushAsiento]
  have hfinap : (sesionReversion uid pid uid2 ped modelo cantidad precio
      costo).commit.visible.apuntes = plan.visible.apuntes ++
      [⟨1, 1, (cantidad : ℚ) * precio, 0⟩, ⟨1, 8, 0, (cantidad : ℚ) * precio⟩,
       ⟨2, 9, costo * (cantidad : ℚ), 0⟩, ⟨2, 3, 0, costo * (cantidad : ℚ)⟩,
       ⟨3, 8, (cantidad : ℚ) * precio, 0⟩, ⟨3, 1, 0, (cantidad : ℚ) * precio⟩,
       ⟨4, 3, costo * (cantidad : ℚ), 0⟩, ⟨4, 9, 0, costo * (cantidad : ℚ)⟩] := by
    simp [sesionReversion, sesionCancelacion, sesionVentaCosto, sesionVenta,
      Sess.visible_commit, Sess.visible_addApunte, Sess.visible_flushAsiento]
  have hbal : ∀ cid : ℕ,
      ((([⟨1, 1, (cantidad : ℚ) * precio, 0⟩, ⟨1, 8, 0, (cantidad : ℚ) * precio⟩,
          ⟨2, 9, costo * (cantidad : ℚ), 0⟩, ⟨2, 3, 0, costo * (cantidad : ℚ)⟩,
          ⟨3, 8, (cantidad : ℚ) * precio, 0⟩, ⟨3, 1, 0, (cantidad : ℚ) * precio⟩,
          ⟨4, 3, costo * (cantidad : ℚ), 0⟩, ⟨4, 9, 0, costo * (cantidad : ℚ)⟩] :
          List Apunte).filter (fun a => a.cuenta_id == cid)).map (·.debe)).sum =
      ((([⟨1, 1, (cantidad : ℚ) * precio, 0⟩, ⟨1, 8, 0, (cantidad : ℚ) * precio⟩,
          ⟨2, 9, costo * (cantidad : ℚ), 0⟩, ⟨2, 3, 0, costo * (cantidad : ℚ)⟩,
          ⟨3, 8, (cantidad : ℚ) * precio, 0⟩, ⟨3, 1, 0, (cantidad : ℚ) * precio⟩,
          ⟨4, 3, costo * (cantidad : ℚ), 0⟩, ⟨4, 9, 0, costo * (cantidad : ℚ)⟩] :
          List Apunte).filter (fun a => a.cuenta_id == cid)).map (·.haber)).sum := by
    intro cid
    simp only [List.filter_cons, List.filter_nil]
    split_ifs <;> simp_all <;> ring
  refine ⟨hconf, hcanc,
    fun cid => obtener_saldo_ext plan _ _ hfincu hfinap hbal cid, ?_⟩
  have hfinas : (sesionReversion uid pid uid2 ped modelo cantidad precio
      costo).commit.visible.asientos =
      plan.visible.asientos ++
        ([⟨1, s!"Venta de {modelo} (x{cantidad})", uid, some pid⟩,
          ⟨2, s!"Costo Venta {modelo}", uid, some pid⟩,
          ⟨3, s!"Cancelación Venta {modelo}", uid2, some ped⟩,
          ⟨4, s!"Reversión Costo {modelo}", uid2, some ped⟩] : List Asiento) := rfl
  rw [hfinas, List.length_append]
  rfl

/-- Witness for claim C7 at the spec's `qty=2, price=50, cost=20`: the
round-trip leaves the cash account's balance where it started and the
ledger holds four entries. -/
theorem venta_y_cancelacion_witness :
    obtener_saldo_cuenta
        (sesionReversion 1 1 1 1 "Mesa" 2 50 20).commit 1 =
      obtener_saldo_cuenta plan 1 ∧
    (sesionReversion 1 1 1 1 "Mesa" 2 50 20).commit.visible.asientos.length =
      plan.visible.asientos.length + 4 :=
  ⟨(venta_y_cancelacion 1 1 1 1 "Mesa" 2 50 20 (by norm_num)).2.2.1 1,
   (venta_y_cancelacion 1 1 1 1 "Mesa" 2 50 20 (by norm_num)).2.2.2⟩

/-- Claim C5:  For chronologically ordered timestamps and every granularity,
the period resolver's integer sort keys compare lexicographically in the
same order (so sorting buckets by key is chronological); and the quarter
example over 2024-01-15, 2024-04-10, 2023-12-20 yields the ordered labels
`2023-T4`, `2024-T1`, `2024-T2`. -/
theorem period_key_monotone :
    (∀ (t1 t2 : Fecha) (intervalo : String),
      t1.valida → t2.valida → t1.le t2 →
      tupleLeB (_period_key_and_label t1 intervalo).1
        (_period_key_and_label t2 intervalo).1 = true) ∧
    _dataset_ventas_totales_periodos
        [⟨2024, 1, 15⟩, ⟨2024, 4, 10⟩, ⟨2023, 12, 20⟩] "trimestre" =
      ["2023-T4", "2024-T1", "2024-T2"] := by
  constructor
  · intro t1 t2 intervalo hv1 hv2 hle
    have hord := ymd2ord_mono t1 t2 hv1 hv2 hle
    have hle' := hle
    unfold Fecha.le at hle'
    simp only [_period_key_and_label]
    by_cases h1 : lowerString intervalo = "dia"
    · simp only [h1, reduceIte]
      rw [tupleLeB_triple]
      omega
    · simp only [h1, reduceIte]
      by_cases h2 : lowerString intervalo = "semana"
      · simp only [h2, reduceIte]
        rw [tupleLeB_pair]
        exact isocalendar_mono t1 t2 hv1 hv2 hord
      · simp only [h2, reduceIte]
        by_cases h3 : lowerString intervalo = "trimestre"
        · simp only [h3, reduceIte]
          rw [tupleLeB_pair]
          omega
        · simp only [h3, reduceIte]
          by_cases h4 : lowerString intervalo = "anio"
          · simp only [h4, reduceIte]
            rw [tupleLeB_single]
            omega
          · simp only [h4, reduceIte]
            rw [tupleLeB_pair]
            omega
  · rfl

/-- Witness for claim C5: the quarter keys of 2023-12-20 and 2024-01-15
compare in chronological order. -/
theorem period_key_monotone_witness :
    tupleLeB (_period_key_and_label ⟨2023, 12, 20⟩ "trimestre").1
      (_period_key_and_label ⟨2024, 1, 15⟩ "trimestre").1 = true :=
  period_key_monotone.1 ⟨2023, 12, 20⟩ ⟨2024, 1, 15⟩ "trimestre"
    (by refine ⟨by norm_num, by norm_num, by norm_num, by norm_num, ?_⟩
        simp [daysInMonth])
    (by refine ⟨by norm_num, by norm_num, by norm_num, by norm_num, ?_⟩
        simp [daysInMonth])
    (Or.inl (by norm_num))

end Suministros
